import Mathlib

/-!
Shallow embedding of the authentication subsystem of the `ar-backend`
repository (src/services/auth.service.ts, src/middleware/auth.ts,
src/config/config.ts), together with theorems settling the frozen claims
about it.

Modelling conventions:
* Time is a single `Nat` timeline measured in minutes (the source uses
  JS `Date` with `setMinutes(+30)` for lockout and `setDate(+7)` for
  refresh expiry, so one minute is the natural unit).
* JS values that may be `undefined` are modelled as `Option`; reading an
  absent object property yields `none`.
* The JSON-web-token library is modelled symbolically: a signed token is
  a constructor carrying the exact claims object passed to `jwt.sign`
  plus the signing secret; `jwt.verify` succeeds exactly when the secret
  matches and the `exp` claim (when present) has not passed.  The source
  never passes an `expiresIn` option to `jwt.sign`, so issued tokens
  carry `exp := none`.
* `bcrypt` is modelled as an injective tagging function; `compare` is
  verification by recomputation.  (The salt only affects the hash's
  literal bytes, not which passwords verify, so it is not modelled.)
* SQL rows are Lean structures, tables are lists, `WHERE col = $1`
  filters by equality, and a `NULL` (i.e. `none`) parameter matches no
  row, as in Postgres.
* Nondeterministic inputs of the source (`uuidv4()` fresh ids, the
  current time) are explicit parameters.
-/

deriving instance DecidableEq for Except

namespace ArBackend

/-- Model of `config.jwt` from src/config/config.ts (default values:
no environment overrides). -/
structure JwtConfig where
  secret : String
  expiresIn : String
  refreshSecret : String
  refreshExpiresIn : String
deriving Repr, DecidableEq

/-- `config.jwt` with the defaults hard-coded in src/config/config.ts.
Note `expiresIn` / `refreshExpiresIn` exist in the config but are never
read by auth.service.ts. -/
def config_jwt : JwtConfig :=
  { secret := "change-this-secret"
  , expiresIn := "15m"
  , refreshSecret := "change-this-refresh-secret"
  , refreshExpiresIn := "7d" }

/-- Model of `bcrypt.hash(password, 12)`: injective tagging standing in
for the salted adaptive hash (cost factor 12). -/
def bcryptHash (password : String) : String :=
  "$2b$12$" ++ password

/-- Model of `bcrypt.compare(password, hash)`: verify by recomputation. -/
def bcryptCompare (password hash : String) : Bool :=
  bcryptHash password == hash

/-- The inner object `{ userId, email, tokenId }` that
`AuthService.generateTokens` nests under the `payload` key of the claims
it signs.  Each field is `Option` because `tokenId` is absent in the
access-token case. -/
structure JwtPayload where
  userId : Option String
  email : Option String
  tokenId : Option String
deriving Repr, DecidableEq

/-- A JWT claims object, i.e. the JS object handed to `jwt.sign` (and
recovered by `jwt.verify`).  The fields are the property names that any
part of the repository writes (`payload`, via `generateTokens`) or reads
(`userId`, `email`, `tokenId`, read by the verify sites; `exp`, read by
the library).  Absent properties are `none`. -/
structure JwtClaims where
  payload : Option JwtPayload
  userId : Option String
  email : Option String
  tokenId : Option String
  exp : Option Nat
deriving Repr, DecidableEq

/-- A token string: either a well-formed JWT produced by `jwt.sign`
(claims plus signing secret) or any other string. -/
inductive TokenVal where
  | jwt (claims : JwtClaims) (secret : String)
  | raw (s : String)
deriving Repr, DecidableEq

/-- Errors thrown by the jsonwebtoken library.  In the library,
`TokenExpiredError` is a subclass of `JsonWebTokenError`, so an
`instanceof JsonWebTokenError` test also catches expired tokens. -/
inductive JwtError where
  | jsonWebTokenError
  | tokenExpiredError
deriving Repr, DecidableEq

/-- Model of `jwt.verify(token, secret)` at time `now`: fails unless the
token was signed with `secret`; an `exp` claim that has passed raises
`TokenExpiredError`; otherwise the claims object is returned. -/
def jwtVerify (token : TokenVal) (secret : String) (now : Nat) :
    Except JwtError JwtClaims :=
  match token with
  | .raw _ => .error .jsonWebTokenError
  | .jwt claims s =>
    if s == secret then
      match claims.exp with
      | some e => if e ≤ now then .error .tokenExpiredError else .ok claims
      | none => .ok claims
    else .error .jsonWebTokenError

/-- `AppError` from src/middleware/errorHandler.ts (the `isOperational`
flag, always defaulted, is omitted). -/
structure AppError where
  statusCode : Nat
  code : String
  message : String
deriving Repr, DecidableEq

/-- A row of the `users` table, restricted to the columns the
authentication subsystem reads or writes. -/
structure User where
  id : String
  email : String
  password_hash : String
  full_name : Option String
  is_active : Bool
  failed_login_attempts : Nat
  locked_until : Option Nat
  last_login : Option Nat
  is_verified : Bool
deriving Repr, DecidableEq

/-- A row of the `refresh_tokens` table.  `user_id` is `Option` because
the source inserts `decoded.userId`-shaped values that can be
`undefined`. -/
structure RefreshTokenRecord where
  id : String
  user_id : Option String
  token : TokenVal
  device_info : Option String
  ip_address : Option String
  expires_at : Nat
  is_revoked : Bool
  last_used_at : Option Nat
deriving Repr, DecidableEq

/-- The persistent store: the two tables the subsystem touches. -/
structure Db where
  users : List User
  refresh_tokens : List RefreshTokenRecord
deriving Repr, DecidableEq

/-- `AuthTokens` interface from auth.service.ts. -/
structure AuthTokens where
  accessToken : TokenVal
  refreshToken : TokenVal
  expiresIn : Nat
deriving Repr, DecidableEq

/-- `RegisterDTO` from auth.service.ts. -/
structure RegisterDTO where
  email : String
  password : String
  fullName : Option String
deriving Repr, DecidableEq

def minutesPerDay : Nat := 1440

namespace AuthService

/-- The access token minted at auth.service.ts lines 236-239:
`jwt.sign({ payload: { userId, email } }, config.jwt.secret || "")`.
No `expiresIn` option is passed, so the token carries no `exp` claim.
The signed claims object has a single top-level property, `payload`. -/
def issueAccessToken (userId email : Option String) : TokenVal :=
  .jwt
    { payload := some { userId := userId, email := email, tokenId := none }
    , userId := none, email := none, tokenId := none, exp := none }
    config_jwt.secret

/-- The refresh token minted at auth.service.ts lines 245-248:
`jwt.sign({ payload: { userId, email, tokenId } }, config.jwt.refreshSecret)`.
Again no `expiresIn` option, hence no `exp` claim. -/
def issueRefreshToken (userId email : Option String) (tokenId : String) :
    TokenVal :=
  .jwt
    { payload := some { userId := userId, email := email, tokenId := some tokenId }
    , userId := none, email := none, tokenId := none, exp := none }
    config_jwt.refreshSecret

/-- `AuthService.generateTokens` (auth.service.ts lines 229-262): mint
the pair, insert the refresh-token row with `expires_at = now + 7 days`,
return `{ accessToken, refreshToken, expiresIn: 900 }`.  `tokenId` is
the `uuidv4()` result, made an explicit parameter. -/
def generateTokens (userId email : Option String)
    (deviceInfo ipAddress : Option String) (tokenId : String) (now : Nat)
    (db : Db) : AuthTokens × Db :=
  let accessToken := issueAccessToken userId email
  let refreshTokenExpiry := now + 7 * minutesPerDay
  let refreshToken := issueRefreshToken userId email tokenId
  let record : RefreshTokenRecord :=
    { id := tokenId, user_id := userId, token := refreshToken
    , device_info := deviceInfo, ip_address := ipAddress
    , expires_at := refreshTokenExpiry, is_revoked := false
    , last_used_at := none }
  ( { accessToken := accessToken, refreshToken := refreshToken, expiresIn := 900 }
  , { db with refresh_tokens := db.refresh_tokens ++ [record] } )

/-- The email test at auth.service.ts line 37:
regex `[^ CLASS ]+@[^ CLASS ]+[.][^ CLASS ]+` anchored on both sides,
where CLASS is whitespace-or-`@`.  Because all three character classes
exclude `@`, a matching string has exactly one `@`; we split there.  The
domain part must contain a `.` that is neither its first nor its last
character (the segment before the dot and the segment after it must be
nonempty; those segments may themselves contain further dots).  JS `\s`
is modelled by its ASCII cases. -/
def isJsSpace (c : Char) : Bool :=
  c == ' ' || c == '\t' || c == '\n' || c == '\r' || c == '\x0b' || c == '\x0c'

/-- `d` contains a `.` at a position that is neither first nor last. -/
def hasInnerDot (d : List Char) : Bool :=
  (List.range d.length).any fun i =>
    d.getD i ' ' == '.' && decide (0 < i) && decide (i + 1 < d.length)

/-- `emailRegex.test(email)` from auth.service.ts lines 37-38, over the
string's character list: exactly one `@`; nonempty whitespace-free part
before it; nonempty whitespace-free domain after it containing an inner
dot. -/
def emailRegexTest (s : String) : Bool :=
  let cs := s.data
  if (cs.filter (fun c => c == '@')).length == 1 then
    let localPart := cs.takeWhile (fun c => !(c == '@'))
    let domain := (cs.dropWhile (fun c => !(c == '@'))).drop 1
    decide (0 < localPart.length) && localPart.all (fun c => !(isJsSpace c)) &&
    decide (0 < domain.length) && domain.all (fun c => !(isJsSpace c)) &&
    hasInnerDot domain
  else false

/-- The lock test at auth.service.ts line 110:
`user.locked_until && new Date(user.locked_until) > new Date()`. -/
def lockedNow (locked_until : Option Nat) (now : Nat) : Bool :=
  match locked_until with
  | some t => decide (now < t)
  | none => false

/-- `AuthService.register` (auth.service.ts lines 33-80).  `newUserId`
is the id the `INSERT ... RETURNING` row receives; `tokenId` is the
`uuidv4()` used by `generateTokens`.  Returns the result together with
the store after the call. -/
def register (data : RegisterDTO) (newUserId tokenId : String) (now : Nat)
    (db : Db) : Except AppError AuthTokens × Db :=
  if !(emailRegexTest data.email) then
    (.error ⟨400, "INVALID_EMAIL", "Invalid email format"⟩, db)
  else if data.password.length < 8 then
    (.error ⟨400, "WEAK_PASSWORD", "Password must be at least 8 characters"⟩, db)
  else if db.users.any (fun u => u.email == data.email) then
    (.error ⟨409, "USER_EXISTS", "Email already registered"⟩, db)
  else
    let passwordHash := bcryptHash data.password
    let user : User :=
      { id := newUserId, email := data.email, password_hash := passwordHash
      , full_name := data.fullName, is_active := true
      , failed_login_attempts := 0, locked_until := none, last_login := none
      , is_verified := false }
    let db1 : Db := { db with users := db.users ++ [user] }
    let (tokens, db2) :=
      generateTokens (some newUserId) (some data.email) none none tokenId now db1
    (.ok tokens, db2)

/-- `AuthService.handleFailedLogin` (auth.service.ts lines 267-292).
`now` is the time at which `new Date()` is taken for the lock. -/
def handleFailedLogin (userId : String) (currentAttempts : Nat) (now : Nat)
    (db : Db) : Db :=
  let newAttempts := currentAttempts + 1
  if 5 ≤ newAttempts then
    { db with users := db.users.map fun v =>
        if v.id == userId then
          { v with failed_login_attempts := newAttempts
                 , locked_until := some (now + 30) }
        else v }
  else
    { db with users := db.users.map fun v =>
        if v.id == userId then { v with failed_login_attempts := newAttempts }
        else v }

/-- `AuthService.login` (auth.service.ts lines 85-157).  Checks in
source order: user row by email, lock state, `is_active`, password;
on failure after the password check the attempt counter is bumped via
`handleFailedLogin`; on success the counter and lock are cleared and a
token pair is minted. -/
def login (email password : String) (deviceInfo ipAddress : Option String)
    (now : Nat) (newTokenId : String) (db : Db) :
    Except AppError AuthTokens × Db :=
  match db.users.find? (fun u => u.email == email) with
  | none =>
    (.error ⟨401, "INVALID_CREDENTIALS", "Invalid email or password"⟩, db)
  | some user =>
    if lockedNow user.locked_until now then
      (.error ⟨423, "ACCOUNT_LOCKED", "Account temporarily locked. Try again later."⟩, db)
    else if !user.is_active then
      (.error ⟨403, "ACCOUNT_DISABLED", "Account has been disabled"⟩, db)
    else if bcryptCompare password user.password_hash then
      let db1 : Db := { db with users := db.users.map fun v =>
        if v.id == user.id then
          { v with failed_login_attempts := 0, locked_until := none
                 , last_login := some now }
        else v }
      let (tokens, db2) :=
        generateTokens (some user.id) (some user.email) deviceInfo ipAddress
          newTokenId now db1
      (.ok tokens, db2)
    else
      (.error ⟨401, "INVALID_CREDENTIALS", "Invalid email or password"⟩
      , handleFailedLogin user.id user.failed_login_attempts now db)

/-- The decode-and-cast step of `AuthService.refreshAccessToken`
(auth.service.ts lines 165-169): `jwt.verify(refreshToken,
config.jwt.refreshSecret)` read back through the asserted type
`{ userId; email; tokenId }`. -/
def refreshDecode (token : TokenVal) (now : Nat) :
    Except JwtError (Option String × Option String × Option String) :=
  (jwtVerify token config_jwt.refreshSecret now).map fun d =>
    (d.userId, d.email, d.tokenId)

/-- `AuthService.refreshAccessToken` (auth.service.ts lines 162-203).
The row lookup is `WHERE id = $1` with parameter `decoded.tokenId`
(`none` matches no row, as a SQL `NULL` comparison).  Any
`JsonWebTokenError` (including its subclass `TokenExpiredError`) from
`jwt.verify` is mapped to `INVALID_TOKEN` by the catch block; the
`AppError`s thrown inside the try block are re-thrown unchanged. -/
def refreshAccessToken (refreshToken : TokenVal) (now : Nat)
    (newTokenId : String) (db : Db) : Except AppError AuthTokens × Db :=
  match jwtVerify refreshToken config_jwt.refreshSecret now with
  | .error _ =>
    (.error ⟨401, "INVALID_TOKEN", "Invalid refresh token"⟩, db)
  | .ok decoded =>
    match db.refresh_tokens.find? (fun r => decoded.tokenId == some r.id) with
    | none => (.error ⟨401, "INVALID_TOKEN", "Invalid refresh token"⟩, db)
    | some tokenData =>
      if tokenData.is_revoked then
        (.error ⟨401, "INVALID_TOKEN", "Invalid refresh token"⟩, db)
      else if tokenData.expires_at < now then
        (.error ⟨401, "TOKEN_EXPIRED", "Refresh token expired"⟩, db)
      else
        let db1 : Db := { db with refresh_tokens := db.refresh_tokens.map fun r =>
          if decoded.tokenId == some r.id then { r with last_used_at := some now }
          else r }
        let (tokens, db2) :=
          generateTokens decoded.userId decoded.email none none newTokenId now db1
        (.ok tokens, db2)

/-- `AuthService.logout` (auth.service.ts lines 208-224): verify the
signature, set `is_revoked` on the row matched by `decoded.tokenId`;
every failure is swallowed, so the function is total and never surfaces
an error. -/
def logout (refreshToken : TokenVal) (now : Nat) (db : Db) : Db :=
  match jwtVerify refreshToken config_jwt.refreshSecret now with
  | .error _ => db
  | .ok decoded =>
    { db with refresh_tokens := db.refresh_tokens.map fun r =>
        if decoded.tokenId == some r.id then { r with is_revoked := true }
        else r }

/-- `AuthService.changePassword` (auth.service.ts lines 318-369):
row lookup by id, old-password check, new-password length check, then
hash update followed by revocation of every refresh token of the user. -/
def changePassword (userId oldPassword newPassword : String) (db : Db) :
    Except AppError Unit × Db :=
  match db.users.find? (fun u => u.id == userId) with
  | none => (.error ⟨404, "USER_NOT_FOUND", "User not found"⟩, db)
  | some u =>
    if !(bcryptCompare oldPassword u.password_hash) then
      (.error ⟨401, "INVALID_PASSWORD", "Current password is incorrect"⟩, db)
    else if newPassword.length < 8 then
      (.error ⟨400, "WEAK_PASSWORD", "New password must be at least 8 characters"⟩, db)
    else
      let db1 : Db := { db with users := db.users.map fun v =>
        if v.id == userId then { v with password_hash := bcryptHash newPassword }
        else v }
      let db2 : Db := { db1 with refresh_tokens := db1.refresh_tokens.map fun r =>
        if (r.user_id == some userId) then { r with is_revoked := true } else r }
      (.ok (), db2)

end AuthService

open AuthService

/-- The `req.user` object set by the `authenticate` middleware. -/
structure ReqUser where
  id : Option String
  email : Option String
deriving Repr, DecidableEq

/-- The token-verification core of the `authenticate` middleware
(src/middleware/auth.ts lines 31-49): `jwt.verify(token,
config.jwt.secret)` read back through the asserted type
`{ userId; email }`, errors mapped by the catch block.  (The
`Bearer `-header extraction, pure string plumbing ahead of this, is
outside the token model.)  Note the `instanceof JsonWebTokenError`
branch is tested first and `TokenExpiredError` is its subclass, so both
error kinds surface as `INVALID_TOKEN`. -/
def authenticate (token : TokenVal) (now : Nat) : Except AppError ReqUser :=
  match jwtVerify token config_jwt.secret now with
  | .ok decoded => .ok { id := decoded.userId, email := decoded.email }
  | .error _ => .error ⟨401, "INVALID_TOKEN", "Invalid token"⟩

/-- One `login` call viewed as a store transformer (its result value
discarded); used to chain consecutive attempts. -/
def loginStep (email password : String) (dev ip : Option String) (t : Nat)
    (tid : String) (db : Db) : Db :=
  (AuthService.login email password dev ip t tid db).2

/-! ### Concrete fixtures for witnesses and counterexamples -/

/-- The empty store. -/
def dbEmpty : Db := { users := [], refresh_tokens := [] }

/-- A token pair minted for user `u-1` / `a@b.c` at time 0 with fresh id
`tok-1`, together with the store holding its refresh-token row. -/
def demoPair : AuthTokens × Db :=
  AuthService.generateTokens (some "u-1") (some "a@b.c") none none "tok-1" 0 dbEmpty

/-- An ordinary active account whose password is `right-pass`. -/
def uAlice : User :=
  { id := "u1", email := "a@b.c", password_hash := bcryptHash "right-pass"
  , full_name := none, is_active := true, failed_login_attempts := 0
  , locked_until := none, last_login := none, is_verified := false }

/-- An account locked until time 100. -/
def uLocked : User :=
  { uAlice with id := "u2", locked_until := some 100 }

/-- A deactivated account. -/
def uInactive : User :=
  { uAlice with id := "u3", is_active := false }

/-- A store holding `uAlice` plus one refresh-token row (`tokA`) that was
issued to her. -/
def dbAlice : Db :=
  { users := [uAlice]
  , refresh_tokens :=
      (AuthService.generateTokens (some "u1") (some "a@b.c") none none "tokA" 0
        dbEmpty).2.refresh_tokens }

/-- The store after Alice changes her password. -/
def dbAliceAfterChange : Db :=
  (AuthService.changePassword "u1" "right-pass" "brand-new-pass" dbAlice).2

/-- A store already holding an account registered as `alice@example.com`. -/
def dbAliceRegistered : Db :=
  { users := [{ uAlice with email := "alice@example.com" }], refresh_tokens := [] }

/-- An account that exhausted its five attempts and whose lock (until
time 100) has already elapsed at time 200. -/
def dbExpiredLock : Db :=
  { users := [{ uAlice with failed_login_attempts := 5, locked_until := some 100 }]
  , refresh_tokens := [] }

/-! ### Helper lemmas about single `login` calls on a one-user store -/

theorem login_wrong_password (u : User) (rts : List RefreshTokenRecord)
    (pw : String) (dev ip : Option String) (t : Nat) (tid : String)
    (hl : lockedNow u.locked_until t = false) (ha : u.is_active = true)
    (hp : bcryptCompare pw u.password_hash = false) :
    AuthService.login u.email pw dev ip t tid { users := [u], refresh_tokens := rts }
      = (.error ⟨401, "INVALID_CREDENTIALS", "Invalid email or password"⟩,
         AuthService.handleFailedLogin u.id u.failed_login_attempts t
           { users := [u], refresh_tokens := rts }) := by
  simp [AuthService.login, List.find?, hl, ha, hp]

theorem login_while_locked (u : User) (rts : List RefreshTokenRecord)
    (pw : String) (dev ip : Option String) (t : Nat) (tid : String)
    (hl : lockedNow u.locked_until t = true) :
    AuthService.login u.email pw dev ip t tid { users := [u], refresh_tokens := rts }
      = (.error ⟨423, "ACCOUNT_LOCKED", "Account temporarily locked. Try again later."⟩,
         { users := [u], refresh_tokens := rts }) := by
  simp [AuthService.login, List.find?, hl]

theorem login_success_users (u : User) (rts : List RefreshTokenRecord)
    (pw : String) (dev ip : Option String) (t : Nat) (tid : String)
    (hl : lockedNow u.locked_until t = false) (ha : u.is_active = true)
    (hp : bcryptCompare pw u.password_hash = true) :
    (AuthService.login u.email pw dev ip t tid
        { users := [u], refresh_tokens := rts }).2.users
      = [{ u with failed_login_attempts := 0, locked_until := none
                , last_login := some t }] := by
  simp [AuthService.login, List.find?, hl, ha, hp, AuthService.generateTokens]

theorem handleFailedLogin_singleton_low (u : User) (rts : List RefreshTokenRecord)
    (t : Nat) (h : u.failed_login_attempts + 1 < 5) :
    AuthService.handleFailedLogin u.id u.failed_login_attempts t
        { users := [u], refresh_tokens := rts }
      = { users := [{ u with failed_login_attempts := u.failed_login_attempts + 1 }]
        , refresh_tokens := rts } := by
  simp [AuthService.handleFailedLogin, Nat.not_le.mpr h]

theorem handleFailedLogin_singleton_lock (u : User) (rts : List RefreshTokenRecord)
    (t : Nat) (h : 5 ≤ u.failed_login_attempts + 1) :
    AuthService.handleFailedLogin u.id u.failed_login_attempts t
        { users := [u], refresh_tokens := rts }
      = { users :=
            [{ u with
                failed_login_attempts := u.failed_login_attempts + 1
                locked_until := some (t + 30) }]
        , refresh_tokens := rts } := by
  simp [AuthService.handleFailedLogin, h]

/-- A refresh token as actually minted by `generateTokens` always fails
the refresh flow: its claims carry the ids under the nested `payload`
property, so the top-level `tokenId` the code reads back is absent and
the row lookup (`WHERE id = NULL`) matches nothing. -/
theorem refresh_of_issued_token_fails (userId email : Option String)
    (tid : String) (now : Nat) (newTokenId : String) (db : Db) :
    AuthService.refreshAccessToken (AuthService.issueRefreshToken userId email tid)
      now newTokenId db
      = (.error ⟨401, "INVALID_TOKEN", "Invalid refresh token"⟩, db) := by
  have hf : db.refresh_tokens.find? (fun _ => false) = none :=
    List.find?_eq_none.mpr (fun x _ => by simp)
  simp [AuthService.refreshAccessToken, AuthService.issueRefreshToken, jwtVerify,
    config_jwt, hf]

/-! ### Claim theorems -/

/-- C1: the claim states that verifying an access token issued for
`(u, e)` with the access-verification path returns exactly `{u, e}`, and
that the refresh-verification path round-trips `{u, e, t}`.  The code
falsifies this: `generateTokens` signs the ids nested under a `payload`
property, while both verify sites read them at the top level of the
claims object, so every field comes back absent (`none`) instead of the
issued values.  Evaluated here at `u = "u-1"`, `e = "a@b.c"`,
`t = "tok-1"`. -/
theorem C1_roundtrip_returns_no_fields :
    authenticate (issueAccessToken (some "u-1") (some "a@b.c")) 0
      = .ok { id := none, email := none } ∧
    authenticate (issueAccessToken (some "u-1") (some "a@b.c")) 0
      ≠ .ok { id := some "u-1", email := some "a@b.c" } ∧
    refreshDecode (issueRefreshToken (some "u-1") (some "a@b.c") "tok-1") 0
      = .ok (none, none, none) ∧
    refreshDecode (issueRefreshToken (some "u-1") (some "a@b.c") "tok-1") 0
      ≠ .ok (some "u-1", some "a@b.c", some "tok-1") := by
  refine ⟨rfl, ?_, rfl, ?_⟩ <;> decide

/-- C4: the claim describes what a successful `refreshAccessToken` call
does.  The code falsifies the premise that the presented (fresh, valid)
refresh token is usable at all: for the pair minted for
`(u-1, a@b.c, tok-1)` at time 0, whose backing row exists, is not
revoked, is far from its expiry (10080) and was never used, the refresh
call at time 1 fails with `INVALID_TOKEN` and leaves the store
untouched (in particular `last_used_at` stays `none`), because the
`tokenId` read back from the token is absent and the row lookup runs
with a `NULL` id. -/
theorem C4_refresh_never_succeeds :
    demoPair.2.refresh_tokens.map RefreshTokenRecord.is_revoked = [false] ∧
    demoPair.2.refresh_tokens.map RefreshTokenRecord.expires_at = [10080] ∧
    demoPair.2.refresh_tokens.map RefreshTokenRecord.last_used_at = [none] ∧
    AuthService.refreshAccessToken demoPair.1.refreshToken 1 "tok-2" demoPair.2
      = (.error ⟨401, "INVALID_TOKEN", "Invalid refresh token"⟩, demoPair.2) := by
  refine ⟨rfl, rfl, rfl, ?_⟩
  decide

/-- C5: the claim states that an issued access token expires 15 minutes
after issuance, with verification afterwards failing as `TokenExpired`.
The code never passes an `expiresIn` option to `jwt.sign`, so the token
carries no `exp` claim and verification succeeds at any later time —
shown here 16 minutes and one million minutes after the issuance at
time 0 — while the returned pair still reports `expiresIn = 900`. -/
theorem C5_access_token_never_expires :
    demoPair.1.expiresIn = 900 ∧
    demoPair.1.accessToken = issueAccessToken (some "u-1") (some "a@b.c") ∧
    (jwtVerify demoPair.1.accessToken config_jwt.secret 16).isOk = true ∧
    (jwtVerify demoPair.1.accessToken config_jwt.secret 1000000).isOk = true ∧
    authenticate demoPair.1.accessToken 16
      ≠ .error ⟨401, "TOKEN_EXPIRED", "Token expired"⟩ := by
  refine ⟨rfl, rfl, rfl, rfl, ?_⟩
  decide

/-- C8: the claim states that `logout` always returns successfully with
failures swallowed (true: the function is total), but also that a call
with a valid refresh token leaves that token's record revoked.  The code
falsifies the revocation: the `tokenId` read back from the token is
absent, so the revoking update matches no row and both a first and a
second `logout` with the freshly minted token leave the store unchanged,
the backing record still unrevoked; a garbage token is likewise
swallowed. -/
theorem C8_logout_revokes_nothing :
    AuthService.logout demoPair.1.refreshToken 1 demoPair.2 = demoPair.2 ∧
    AuthService.logout demoPair.1.refreshToken 2
        (AuthService.logout demoPair.1.refreshToken 1 demoPair.2) = demoPair.2 ∧
    demoPair.2.refresh_tokens.map RefreshTokenRecord.is_revoked = [false] ∧
    AuthService.logout (.raw "not-a-jwt") 3 demoPair.2 = demoPair.2 := by
  refine ⟨?_, ?_, rfl, rfl⟩ <;> decide

/-- C6: for every `login` call the checks run in source order — user
row by email first, then lock state, then `is_active`, then the
password.  A missing user fails with `INVALID_CREDENTIALS` (never
`USER_NOT_FOUND`); a locked account fails with `ACCOUNT_LOCKED` whatever
its `is_active` flag (the lock check precedes it); an unlocked inactive
account fails with `ACCOUNT_DISABLED` for every password and with the
store untouched (so no password verification and no attempt counting
happened). -/
theorem C6_login_check_order (email password : String)
    (dev ip : Option String) (now : Nat) (tid : String) (db : Db) :
    (db.users.find? (fun u => u.email == email) = none →
      AuthService.login email password dev ip now tid db
        = (.error ⟨401, "INVALID_CREDENTIALS", "Invalid email or password"⟩, db)) ∧
    (∀ u, db.users.find? (fun u => u.email == email) = some u →
      lockedNow u.locked_until now = true →
      AuthService.login email password dev ip now tid db
        = (.error ⟨423, "ACCOUNT_LOCKED", "Account temporarily locked. Try again later."⟩, db)) ∧
    (∀ u, db.users.find? (fun u => u.email == email) = some u →
      lockedNow u.locked_until now = false → u.is_active = false →
      AuthService.login email password dev ip now tid db
        = (.error ⟨403, "ACCOUNT_DISABLED", "Account has been disabled"⟩, db)) := by
  refine ⟨?_, ?_, ?_⟩
  · intro h; simp [AuthService.login, h]
  · intro u hu hl; simp [AuthService.login, hu, hl]
  · intro u hu hl ha; simp [AuthService.login, hu, hl, ha]

/-- C6 witness: the three branches exercised on concrete stores — the
empty store, a store with a locked account (lock until 100, call at
50), and a store with a deactivated account. -/
theorem C6_login_check_order_witness :
    AuthService.login "a@b.c" "pw" none none 0 "t" dbEmpty
      = (.error ⟨401, "INVALID_CREDENTIALS", "Invalid email or password"⟩, dbEmpty) ∧
    AuthService.login "a@b.c" "pw" none none 50 "t"
        { users := [uLocked], refresh_tokens := [] }
      = (.error ⟨423, "ACCOUNT_LOCKED", "Account temporarily locked. Try again later."⟩,
         { users := [uLocked], refresh_tokens := [] }) ∧
    AuthService.login "a@b.c" "pw" none none 50 "t"
        { users := [uInactive], refresh_tokens := [] }
      = (.error ⟨403, "ACCOUNT_DISABLED", "Account has been disabled"⟩,
         { users := [uInactive], refresh_tokens := [] }) :=
  ⟨(C6_login_check_order "a@b.c" "pw" none none 0 "t" dbEmpty).1 (by decide),
   (C6_login_check_order "a@b.c" "pw" none none 50 "t"
      { users := [uLocked], refresh_tokens := [] }).2.1 uLocked (by decide) (by decide),
   (C6_login_check_order "a@b.c" "pw" none none 50 "t"
      { users := [uInactive], refresh_tokens := [] }).2.2 uInactive
     (by decide) (by decide) (by decide)⟩

/-- C10: `changePassword` for a `user_id` with no matching row fails
with the 404 error `USER_NOT_FOUND` — a code outside the spec's
`changePassword` taxonomy (`INVALID_PASSWORD` / `WEAK_PASSWORD`) — and
returns the store unchanged, for every old/new password, so no
verification, hash update or revocation has happened. -/
theorem C10_changePassword_missing_user
    (userId oldPassword newPassword : String) (db : Db)
    (h : db.users.find? (fun u => u.id == userId) = none) :
    AuthService.changePassword userId oldPassword newPassword db
      = (.error ⟨404, "USER_NOT_FOUND", "User not found"⟩, db) ∧
    ("USER_NOT_FOUND" : String) ≠ "INVALID_PASSWORD" ∧
    ("USER_NOT_FOUND" : String) ≠ "WEAK_PASSWORD" := by
  refine ⟨?_, by decide, by decide⟩
  simp [AuthService.changePassword, h]

/-- C10 witness: evaluated on the empty store. -/
theorem C10_changePassword_missing_user_witness :
    AuthService.changePassword "u-404" "old-pass" "new-password" dbEmpty
      = (.error ⟨404, "USER_NOT_FOUND", "User not found"⟩, dbEmpty) :=
  (C10_changePassword_missing_user "u-404" "old-pass" "new-password" dbEmpty
    (by decide)).1

/-- C3: after a successful `changePassword` for a user, every
refresh-token row owned by that user is revoked, and a subsequent
`refreshAccessToken` call with any refresh token issued to that user
before the change fails with `INVALID_TOKEN`, leaving the store as the
change left it. -/
theorem C3_changePassword_revokes_all_sessions
    (userId oldPassword newPassword : String) (db db' : Db)
    (h : AuthService.changePassword userId oldPassword newPassword db
           = (.ok (), db')) :
    (∀ r ∈ db'.refresh_tokens, r.user_id = some userId → r.is_revoked = true) ∧
    (∀ (em : Option String) (tid newTokenId : String) (later : Nat),
      AuthService.refreshAccessToken (issueRefreshToken (some userId) em tid)
        later newTokenId db'
        = (.error ⟨401, "INVALID_TOKEN", "Invalid refresh token"⟩, db')) := by
  constructor
  · rcases hfind : db.users.find? (fun u => u.id == userId) with _ | u
    · simp only [AuthService.changePassword, hfind] at h
      simp at h
    · simp only [AuthService.changePassword, hfind] at h
      by_cases hc : bcryptCompare oldPassword u.password_hash = true
      · by_cases hlen : newPassword.length < 8
        · simp [hc, hlen] at h
        · simp [hc, hlen] at h
          rw [← h]
          intro r hr hru
          simp only [List.mem_map] at hr
          obtain ⟨s, hs, rfl⟩ := hr
          by_cases hsu : s.user_id = some userId
          · simp [hsu]
          · simp only [beq_iff_eq, if_neg hsu] at hru ⊢
            exact absurd hru hsu
      · simp [hc] at h
  · intro em tid newTokenId later
    exact refresh_of_issued_token_fails (some userId) em tid later newTokenId db'

/-- C3 witness: Alice (`u1`) holds one refresh-token row `tokA`; after
she changes her password, refreshing with a token issued to her fails
with `INVALID_TOKEN`. -/
theorem C3_changePassword_revokes_all_sessions_witness :
    AuthService.refreshAccessToken (issueRefreshToken (some "u1") (some "a@b.c") "tokA")
      5 "tok-2" dbAliceAfterChange
      = (.error ⟨401, "INVALID_TOKEN", "Invalid refresh token"⟩, dbAliceAfterChange) :=
  (C3_changePassword_revokes_all_sessions "u1" "right-pass" "brand-new-pass"
    dbAlice dbAliceAfterChange (by decide)).2 (some "a@b.c") "tokA" "tok-2" 5

/-- C7 counterexample: the claim says that once `locked_until` has
elapsed the counter restarts on the next failed attempt.  On the
concrete account with `failed_login_attempts = 5` and a lock that
expired at 100, a failed login at 200 leaves the counter at 6 — it
continued from the stored value instead of restarting at 1 — and
immediately re-locks the account until 230. -/
theorem C7_expired_lock_counterexample :
    (AuthService.login "a@b.c" "wrong-pass" none none 200 "tid-1"
        dbExpiredLock).2.users.map User.failed_login_attempts = [6] ∧
    (AuthService.login "a@b.c" "wrong-pass" none none 200 "tid-1"
        dbExpiredLock).2.users.map User.failed_login_attempts ≠ [1] ∧
    (AuthService.login "a@b.c" "wrong-pass" none none 200 "tid-1"
        dbExpiredLock).2.users.map User.locked_until = [some 230] := by
  refine ⟨rfl, ?_, rfl⟩
  decide

/-- C7 amended: `failed_login_attempts` resets to 0 whenever a login
succeeds; when `locked_until` has elapsed the stored counter is kept,
and the next failed attempt increments it from the stored value
(continuing, not restarting — so a count already at 5 jumps to 6 and
re-locks at once). -/
theorem C7_counter_reset_and_continuation
    (u : User) (rts : List RefreshTokenRecord) (pw pw' : String)
    (dev ip : Option String) (tid : String) (now : Nat)
    (ha : u.is_active = true) :
    (lockedNow u.locked_until now = false →
      bcryptCompare pw u.password_hash = true →
      (AuthService.login u.email pw dev ip now tid
          { users := [u], refresh_tokens := rts }).2.users.map
        User.failed_login_attempts = [0]) ∧
    (∀ t : Nat, u.locked_until = some t → t ≤ now →
      bcryptCompare pw' u.password_hash = false →
      (AuthService.login u.email pw' dev ip now tid
          { users := [u], refresh_tokens := rts }).2.users.map
        User.failed_login_attempts = [u.failed_login_attempts + 1]) := by
  constructor
  · intro hl hp
    rw [login_success_users u rts pw dev ip now tid hl ha hp]
    simp
  · intro t hlu hle hp
    have hl : lockedNow u.locked_until now = false := by
      simp [lockedNow, hlu, Nat.not_lt.mpr hle]
    rw [show (AuthService.login u.email pw' dev ip now tid
          { users := [u], refresh_tokens := rts }).2
        = AuthService.handleFailedLogin u.id u.failed_login_attempts now
            { users := [u], refresh_tokens := rts } from
      congrArg Prod.snd (login_wrong_password u rts pw' dev ip now tid hl ha hp)]
    by_cases h5 : 5 ≤ u.failed_login_attempts + 1
    · rw [handleFailedLogin_singleton_lock u rts now h5]
      simp
    · rw [handleFailedLogin_singleton_low u rts now (Nat.not_le.mp h5)]
      simp

/-- C7 witness: a successful login by Alice at time 7 resets her counter
to 0; the expired-lock account (counter 5, lock until 100) failing again
at time 200 moves to counter 6 = 5 + 1. -/
theorem C7_counter_reset_and_continuation_witness :
    (AuthService.login uAlice.email "right-pass" none none 7 "tid"
        { users := [uAlice], refresh_tokens := [] }).2.users.map
      User.failed_login_attempts = [0] ∧
    (AuthService.login "a@b.c" "wrong-pass" none none 200 "tid"
        { users := [{ uAlice with failed_login_attempts := 5, locked_until := some 100 }]
        , refresh_tokens := [] }).2.users.map
      User.failed_login_attempts = [6] :=
  ⟨(C7_counter_reset_and_continuation uAlice [] "right-pass" "x" none none "tid" 7
      (by decide)).1 (by decide) (by decide),
   (C7_counter_reset_and_continuation
      { uAlice with failed_login_attempts := 5, locked_until := some 100 }
      [] "x" "wrong-pass" none none "tid" 200 (by decide)).2 100
      (by decide) (by decide) (by decide)⟩

/-- C9 counterexample: the claim says register rejects duplicates
compared case-normalized.  With `alice@example.com` already registered,
`AuthService.register` for `Alice@example.com` (valid format, long
password) succeeds and inserts a second user row rather than failing
with `USER_EXISTS`: the service compares emails exactly as given. -/
theorem C9_case_normalization_counterexample :
    ((AuthService.register
        { email := "Alice@example.com", password := "password123", fullName := none }
        "u2" "tok-9" 0 dbAliceRegistered).1.toOption.isSome = true) ∧
    ((AuthService.register
        { email := "Alice@example.com", password := "password123", fullName := none }
        "u2" "tok-9" 0 dbAliceRegistered).1
      ≠ .error ⟨409, "USER_EXISTS", "Email already registered"⟩) ∧
    ((AuthService.register
        { email := "Alice@example.com", password := "password123", fullName := none }
        "u2" "tok-9" 0 dbAliceRegistered).2.users.map User.email
      = ["alice@example.com", "Alice@example.com"]) := by
  refine ⟨rfl, ?_, rfl⟩
  decide

/-- C9 amended: `register` rejects a malformed email with
`INVALID_EMAIL`, a password shorter than 8 characters with
`WEAK_PASSWORD`, and an email equal (byte-for-byte — case-insensitive
matching happens only upstream, in the HTTP validation layer's
`normalizeEmail`) to a stored user's email with `USER_EXISTS`; in each
case the store is returned unchanged, so no user row or token record was
written. -/
theorem C9_register_rejections (data : RegisterDTO)
    (newUserId tokenId : String) (now : Nat) (db : Db) :
    (emailRegexTest data.email = false →
      AuthService.register data newUserId tokenId now db
        = (.error ⟨400, "INVALID_EMAIL", "Invalid email format"⟩, db)) ∧
    (emailRegexTest data.email = true → data.password.length < 8 →
      AuthService.register data newUserId tokenId now db
        = (.error ⟨400, "WEAK_PASSWORD", "Password must be at least 8 characters"⟩, db)) ∧
    (emailRegexTest data.email = true → ¬ data.password.length < 8 →
      (db.users.any fun u => u.email == data.email) = true →
      AuthService.register data newUserId tokenId now db
        = (.error ⟨409, "USER_EXISTS", "Email already registered"⟩, db)) := by
  refine ⟨?_, ?_, ?_⟩ <;> intros <;> simp [AuthService.register, *]

/-- C9 witness: the three rejections on concrete inputs — a malformed
email, a 5-character password, and an exact duplicate of the stored
`alice@example.com`. -/
theorem C9_register_rejections_witness :
    (AuthService.register
        { email := "notanemail", password := "password123", fullName := none }
        "u9" "tok-9" 0 dbEmpty
      = (.error ⟨400, "INVALID_EMAIL", "Invalid email format"⟩, dbEmpty)) ∧
    (AuthService.register
        { email := "a@b.c", password := "short", fullName := none }
        "u9" "tok-9" 0 dbEmpty
      = (.error ⟨400, "WEAK_PASSWORD", "Password must be at least 8 characters"⟩, dbEmpty)) ∧
    (AuthService.register
        { email := "alice@example.com", password := "password123", fullName := none }
        "u9" "tok-9" 0 dbAliceRegistered
      = (.error ⟨409, "USER_EXISTS", "Email already registered"⟩, dbAliceRegistered)) :=
  ⟨(C9_register_rejections
      { email := "notanemail", password := "password123", fullName := none }
      "u9" "tok-9" 0 dbEmpty).1 (by decide),
   (C9_register_rejections
      { email := "a@b.c", password := "short", fullName := none }
      "u9" "tok-9" 0 dbEmpty).2.1 (by decide) (by decide),
   (C9_register_rejections
      { email := "alice@example.com", password := "password123", fullName := none }
      "u9" "tok-9" 0 dbAliceRegistered).2.2 (by decide) (by decide) (by decide)⟩

/-- C2: starting from an unlocked active account with
`failed_login_attempts = 0`, five consecutive failed logins (wrong
passwords, no intervening success) leave the account with counter 5 and
`locked_until` set 30 minutes after the fifth failure's time `t5`; every
subsequent login before that instant — with any password, including the
correct one — fails with `ACCOUNT_LOCKED` and leaves the store untouched
(so password verification was never attempted). -/
theorem C2_five_failures_lock_account
    (u : User) (rts : List RefreshTokenRecord)
    (p1 p2 p3 p4 p5 p : String) (t1 t2 t3 t4 t5 now : Nat)
    (dev ip : Option String) (tid : String)
    (h0 : u.failed_login_attempts = 0) (hlu : u.locked_until = none)
    (ha : u.is_active = true)
    (hp1 : bcryptCompare p1 u.password_hash = false)
    (hp2 : bcryptCompare p2 u.password_hash = false)
    (hp3 : bcryptCompare p3 u.password_hash = false)
    (hp4 : bcryptCompare p4 u.password_hash = false)
    (hp5 : bcryptCompare p5 u.password_hash = false)
    (hnow : now < t5 + 30) :
    loginStep u.email p5 dev ip t5 tid
      (loginStep u.email p4 dev ip t4 tid
        (loginStep u.email p3 dev ip t3 tid
          (loginStep u.email p2 dev ip t2 tid
            (loginStep u.email p1 dev ip t1 tid
              { users := [u], refresh_tokens := rts }))))
      = { users := [{ u with
            failed_login_attempts := 5
            locked_until := some (t5 + 30) }]
        , refresh_tokens := rts } ∧
    AuthService.login u.email p dev ip now tid
        { users := [{ u with
            failed_login_attempts := 5
            locked_until := some (t5 + 30) }]
        , refresh_tokens := rts }
      = (.error ⟨423, "ACCOUNT_LOCKED", "Account temporarily locked. Try again later."⟩,
         { users := [{ u with
            failed_login_attempts := 5
            locked_until := some (t5 + 30) }]
         , refresh_tokens := rts }) := by
  obtain ⟨uid, uemail, uhash, ufn, uact, ufla, ulock, ull, uver⟩ := u
  have h0' : ufla = 0 := h0
  have hlu' : ulock = none := hlu
  have ha' : uact = true := ha
  have hq1 : bcryptCompare p1 uhash = false := hp1
  have hq2 : bcryptCompare p2 uhash = false := hp2
  have hq3 : bcryptCompare p3 uhash = false := hp3
  have hq4 : bcryptCompare p4 uhash = false := hp4
  have hq5 : bcryptCompare p5 uhash = false := hp5
  subst h0'
  subst hlu'
  subst ha'
  constructor
  · simp [loginStep, AuthService.login, List.find?, lockedNow,
      AuthService.handleFailedLogin, hq1, hq2, hq3, hq4, hq5]
  · simp [AuthService.login, List.find?, lockedNow, hnow]

/-- C2 witness: Alice (counter 0, unlocked, active) fails five logins at
times 0,1,2,3,100 with wrong passwords; her row then shows counter 5 and
lock until 130, and a login with the correct password at time 120 fails
with `ACCOUNT_LOCKED` without touching the store. -/
theorem C2_five_failures_lock_account_witness :
    loginStep "a@b.c" "w5" none none 100 "tid"
      (loginStep "a@b.c" "w4" none none 3 "tid"
        (loginStep "a@b.c" "w3" none none 2 "tid"
          (loginStep "a@b.c" "w2" none none 1 "tid"
            (loginStep "a@b.c" "w1" none none 0 "tid"
              { users := [uAlice], refresh_tokens := [] }))))
      = { users := [{ uAlice with
            failed_login_attempts := 5
            locked_until := some 130 }]
        , refresh_tokens := [] } ∧
    AuthService.login "a@b.c" "right-pass" none none 120 "tid"
        { users := [{ uAlice with
            failed_login_attempts := 5
            locked_until := some 130 }]
        , refresh_tokens := [] }
      = (.error ⟨423, "ACCOUNT_LOCKED", "Account temporarily locked. Try again later."⟩,
         { users := [{ uAlice with
            failed_login_attempts := 5
            locked_until := some 130 }]
         , refresh_tokens := [] }) :=
  C2_five_failures_lock_account uAlice [] "w1" "w2" "w3" "w4" "w5" "right-pass"
    0 1 2 3 100 120 none none "tid" (by decide) (by decide) (by decide)
    (by decide) (by decide) (by decide) (by decide) (by decide) (by decide)

end ArBackend
